import Mathlib

/-!
Verification of the video_processor repository (Douyu livestream capture and
Bilibili republish pipeline) against its natural-language specification.

Shallow embedding conventions:
* Byte strings (the STT chat wire format of `src/recording/stt_codec.py`)
  are modelled as `List Nat` with byte values; a text payload is represented
  by its UTF-8 byte sequence.  `struct.pack("<I", n)` becomes `le32 n`.
* The MD5 hash used by `src/recording/douyu_stream_resolver.py` is an
  external library primitive (`hashlib.md5`); it is treated as an
  uninterpreted function parameter `md5 : String → String`, since every
  claim about the resolver concerns only the *chaining* of hash calls.
* Timestamps are integers (seconds); SQL `BETWEEN` is inclusive on both ends.
* External effects (the biliup CLI, HTTP endpoints) are driven by explicit
  oracle lists of results consumed in program order, and the functions
  return traces (calls issued, rows inserted, files deleted, sleeps) so
  that counting claims can be stated.
-/

namespace VideoProcessor

/-! ## STT wire codec — `src/recording/stt_codec.py` -/

/-- Little-endian 32-bit serialisation of a natural number, as
`struct.pack("<I", n)` produces for `n < 2^32`. -/
def le32 (n : Nat) : List Nat :=
  [n % 256, n / 256 % 256, n / 65536 % 256, n / 16777216 % 256]

/-- Read a little-endian 32-bit value from the first four bytes of a buffer
(`struct.unpack_from("<I", data, 0)`); `0` if fewer than four bytes. -/
def readLE32 : List Nat → Nat
  | b0 :: b1 :: b2 :: b3 :: _ => b0 + 256 * b1 + 65536 * b2 + 16777216 * b3
  | _ => 0

/-- The Douyu STT opcode constant `_DOUYU_OP_CODE = 689`. -/
def douyuOpCode : Nat := 689

/-- The STT header size `_HEADER_SIZE = 12`. -/
def sttHeaderSize : Nat := 12

/-- Function `pack(payload)` from `stt_codec.py`: append a trailing slash
(byte 47) if missing, NUL-terminate, and prepend two length fields (payload bytes
plus 8) and the opcode, all little-endian 32-bit. -/
def pack (payload : List Nat) : List Nat :=
  let payload := if payload.getLast? = some 47 then payload else payload ++ [47]
  let payloadBytes := payload ++ [0]
  let length := payloadBytes.length + 8
  le32 length ++ le32 length ++ le32 douyuOpCode ++ payloadBytes

/-- The payload normalisation `pack` performs first: append a trailing
slash byte when the payload does not already end in one. -/
def withSlash (payload : List Nat) : List Nat :=
  if payload.getLast? = some 47 then payload else payload ++ [47]

/-- The frame layout emitted by `pack` for an already-normalised payload
`q`: two length fields `q.length + 9` (NUL-terminated payload plus 8),
the opcode, the payload, and the NUL terminator. -/
def sttFrame (q : List Nat) : List Nat :=
  le32 (q.length + 9) ++ le32 (q.length + 9) ++ le32 douyuOpCode ++ q ++ [0]

/-- Function `iter_payloads(data)` from `stt_codec.py`: repeatedly read a length
field, stop on a short or truncated packet, otherwise strip the 12-byte
header, cut the payload at the first NUL, and advance by `length + 4`. -/
def iterPayloads (data : List Nat) : List (List Nat) :=
  if _h4 : data.length < 4 then []
  else
    let len := readLE32 data
    let packetSize := len + 4
    if _hs : packetSize ≤ sttHeaderSize ∨ data.length < packetSize then []
    else
      let payload := ((data.drop sttHeaderSize).take (packetSize - sttHeaderSize)).takeWhile
        (fun b => b ≠ 0)
      payload :: iterPayloads (data.drop packetSize)
  termination_by data.length
  decreasing_by
    simp only [List.length_drop]
    omega

/-! ## Stream-URL resolver signing — `DouyuH5PlayResolver._sign` -/

/-- The iterated secret: `for _ in range(enc_time): secret = md5(secret + key)`. -/
def iterSecret (md5 : String → String) (key : String) : String → Nat → String
  | s, 0 => s
  | s, n + 1 => iterSecret md5 key (md5 (s ++ key)) n

/-- Method `DouyuH5PlayResolver._sign` from `douyu_stream_resolver.py`: the salt is
`room_id ++ ts` unless `is_special` is nonzero (then empty); the secret is
`rand_str` hashed `enc_time` times with the key; the result is
`md5(secret + key + salt)`. -/
def douyuSign (md5 : String → String) (roomId : String) (ts : Nat)
    (randStr key : String) (encTime : Nat) (isSpecial : Int) : String :=
  let salt := if isSpecial = 0 then roomId ++ toString ts else ""
  let secret := iterSecret md5 key randStr encTime
  md5 (secret ++ key ++ salt)

/-! ## Upload orchestrator — `src/uploader.py` -/

/-- Check whether `needle` occurs as a contiguous sublist of `hay`
(the Python membership test of one string in another, at character level). -/
def startsWithCL : List Char → List Char → Bool
  | [], _ => true
  | _ :: _, [] => false
  | a :: as, b :: bs => a = b && startsWithCL as bs

/-- Occurrence of `needle` anywhere in `hay`. -/
def containsCL (needle : List Char) : List Char → Bool
  | [] => startsWithCL needle []
  | b :: bs => startsWithCL needle (b :: bs) || containsCL needle bs

/-- Python `needle in hay` on strings. -/
def strContains (needle hay : String) : Bool :=
  containsCL needle.data hay.data

/-- Result of one biliup CLI invocation (`subprocess.run`). -/
structure CliResult where
  returncode : Int
  stdout : String
  stderr : String
deriving DecidableEq, Repr

/-- The combined output scanned by the success predicates: stdout, one
newline, then stderr. -/
def cliOutput (r : CliResult) : String :=
  r.stdout ++ "\n" ++ r.stderr

/-- Function `_biliup_append_submit_succeeded` from `uploader.py`. -/
def biliupAppendSubmitSucceeded (output : String) (returncode : Int) : Bool :=
  if returncode ≠ 0 then false
  else
    strContains "稿件修改成功" output
    || strContains "投稿成功" output
    || strContains "\"code\": Number(0)" output

/-- Function `_biliup_create_submit_succeeded` from `uploader.py`. -/
def biliupCreateSubmitSucceeded (output : String) (returncode : Int) : Bool :=
  if returncode ≠ 0 then false
  else
    strContains "投稿成功" output
    || strContains "APP接口投稿成功" output
    || strContains "\"code\": Number(0)" output
    || strContains "code: 0" output

/-- One `uploaded_videos` row (`models.UploadedVideo`). -/
structure UVRow where
  bvid : Option String
  title : String
  firstPartFilename : String
  uploadTime : Int
deriving DecidableEq, Repr

/-- One candidate file of the upload folder, with the timestamp parsed from
its filename (`video_info_list` entries in `upload_to_bilibili`). -/
structure VideoInfo where
  filename : String
  timestamp : Int
deriving DecidableEq, Repr

/-- The configuration switches of `config.py` read by the upload path. -/
structure Config where
  deleteUploadedFiles : Bool
  deleteUploadedFilesDelayHours : Nat
  skipVideoEncoding : Bool
  titleSuffix : String
  rateLimitCooldownSeconds : Nat
  rateLimitAppendMaxRetries : Nat
deriving DecidableEq, Repr

/-- SQL `upload_time BETWEEN period_start AND period_end` (inclusive). -/
def inPeriod (periodStart periodEnd : Int) (r : UVRow) : Bool :=
  periodStart ≤ r.uploadTime && r.uploadTime ≤ periodEnd

/-- Accumulator of `ORDER BY upload_time DESC LIMIT 1`: keep the row with
the latest `upload_time` (on a tie the earlier listed row is kept; SQL
leaves tie order unspecified). -/
def chooseLatest (acc : Option UVRow) (r : UVRow) : Option UVRow :=
  match acc with
  | none => some r
  | some a => if a.uploadTime < r.uploadTime then some r else some a

/-- The `existing_bvid` query: rows in the period with non-null `bvid`,
`ORDER BY upload_time DESC LIMIT 1`. -/
def latestWithBvid (rows : List UVRow) (periodStart periodEnd : Int) : Option UVRow :=
  (rows.filter (fun r => inPeriod periodStart periodEnd r && r.bvid.isSome)).foldl
    chooseLatest none

/-- The `pending_record` query: does a row with `bvid IS NULL` lie in the
period? -/
def pendingInPeriod (rows : List UVRow) (periodStart periodEnd : Int) : Bool :=
  !(rows.filter (fun r => inPeriod periodStart periodEnd r && r.bvid.isNone)).isEmpty

/-- The `uploaded_in_period` count: all rows (any `bvid`) in the period. -/
def countInPeriod (rows : List UVRow) (periodStart periodEnd : Int) : Nat :=
  (rows.filter (inPeriod periodStart periodEnd)).length

/-- Two-digit zero-padded decimal, as `strftime` emits. -/
def pad2 (n : Nat) : String :=
  if n < 10 then "0" ++ toString n else toString n

/-- Python strftime with format %H:%M:%S, for a timestamp in seconds. -/
def formatHMS (t : Int) : String :=
  let s := (t % 86400).toNat
  pad2 (s / 3600) ++ ":" ++ pad2 (s % 3600 / 60) ++ ":" ++ pad2 (s % 60)

/-- The part title built in the append loop: `P{n} {HH:MM:SS}` plus the
configured suffix when encoding is skipped. -/
def partTitle (cfg : Config) (n : Nat) (t : Int) : String :=
  if cfg.skipVideoEncoding then
    "P" ++ toString n ++ " " ++ formatHMS t ++ " " ++ cfg.titleSuffix
  else
    "P" ++ toString n ++ " " ++ formatHMS t

/-- Does the database already hold a row for this filename
(the `recheck_query` idempotency check)? -/
def hasFilename (rows : List UVRow) (filename : String) : Bool :=
  rows.any (fun r => r.firstPartFilename = filename)

/-- The row inserted after a successful append:
`UploadedVideo(bvid=None, title=f"{part_title} (分P)", ...)`. -/
def appendedRow (title : String) (v : VideoInfo) : UVRow :=
  { bvid := none
    title := title ++ " (分P)"
    firstPartFilename := v.filename
    uploadTime := v.timestamp }

/-- Trace of one bucket of `upload_to_bilibili`: CLI calls issued, rows
committed, files removed, and `sleep` calls performed. -/
structure BucketRun where
  createCalls : Nat
  appendTitles : List String
  startPart : Option Nat
  inserted : List UVRow
  deletedFiles : List String
  sleeps : List Nat
deriving DecidableEq, Repr

/-- Trace of the append loop: part titles of the CLI calls issued, the
database rows after the loop, and the files physically removed. -/
structure AppendTrace where
  titles : List String
  finalRows : List UVRow
  deleted : List String
deriving DecidableEq, Repr

/-- The per-file append loop of `upload_to_bilibili` (case 1, existing
BVID).  Each attempted file consumes exactly one CLI result from the
oracle; a file already recorded is skipped without advancing the part
number (`continue` before `part_number += 1`); on success the new row is
committed (visible to later recheck queries) and the file is removed iff
`DELETE_UPLOADED_FILES`.  The source performs no sleep and no retry here. -/
def appendLoop (cfg : Config) (videos : List VideoInfo) (rows : List UVRow)
    (n : Nat) (clis : List CliResult) : AppendTrace :=
  match videos with
  | [] => ⟨[], rows, []⟩
  | v :: rest =>
    if hasFilename rows v.filename then
      appendLoop cfg rest rows n clis
    else
      let title := partTitle cfg n v.timestamp
      let cli := clis.headD ⟨1, "", ""⟩
      let ok := biliupAppendSubmitSucceeded (cliOutput cli) cli.returncode
      let rows' := if ok then rows ++ [appendedRow title v] else rows
      let deleted := if ok && cfg.deleteUploadedFiles then [v.filename] else []
      let t := appendLoop cfg rest rows' (n + 1) clis.tail
      ⟨title :: t.titles, t.finalRows, deleted ++ t.deleted⟩

/-- The row inserted by the create path:
`UploadedVideo(bvid=acquired_bvid, title=title, ...)`. -/
def createdRow (bvid : Option String) (title : String) (v : VideoInfo) : UVRow :=
  { bvid := bvid
    title := title
    firstPartFilename := v.filename
    uploadTime := v.timestamp }

/-- One session bucket of `upload_to_bilibili` (steps 5–6 of the source):
choose between append (a non-null BVID row lies in the buffered period),
skip (only pending rows lie there), and create (no row lies there).
`createTitle` abstracts the title template instantiation and
`extractedBvid` the `BV...` regex scan of the create CLI output. -/
def runBucket (cfg : Config) (rows : List UVRow) (periodStart periodEnd : Int)
    (videos : List VideoInfo) (clis : List CliResult)
    (createTitle : String) (extractedBvid : Option String) : BucketRun :=
  match latestWithBvid rows periodStart periodEnd with
  | some _ =>
    let startPart := countInPeriod rows periodStart periodEnd + 1
    let t := appendLoop cfg videos rows startPart clis
    { createCalls := 0
      appendTitles := t.titles
      startPart := some startPart
      inserted := t.finalRows.drop rows.length
      deletedFiles := t.deleted
      sleeps := [] }
  | none =>
    if pendingInPeriod rows periodStart periodEnd then
      { createCalls := 0, appendTitles := [], startPart := none
        inserted := [], deletedFiles := [], sleeps := [] }
    else
      match videos with
      | [] =>
        { createCalls := 0, appendTitles := [], startPart := none
          inserted := [], deletedFiles := [], sleeps := [] }
      | v :: _ =>
        let cli := clis.headD ⟨1, "", ""⟩
        let ok := biliupCreateSubmitSucceeded (cliOutput cli) cli.returncode
        { createCalls := 1
          appendTitles := []
          startPart := none
          inserted := if ok then [createdRow extractedBvid createTitle v] else []
          deletedFiles := if ok && cfg.deleteUploadedFiles then [v.filename] else []
          sleeps := [] }

/-! ## Resolver 403 retry — `DouyuH5PlayResolver.resolve_stream_url` -/

/-- The key bundle returned by the encryption endpoint. -/
structure KeyBundle where
  encData : String
  randStr : String
  key : String
  encTime : Nat
  isSpecial : Int
  expireAt : Option Int
deriving DecidableEq, Repr

/-- The in-memory cache of the resolver (`_key_data`, `_key_expire_at`). -/
structure ResolverState where
  keyData : Option KeyBundle
  keyExpireAt : Int
deriving DecidableEq, Repr

/-- Method `_compute_key_expire_at`: a positive server expiry is honoured minus a
5-second safety margin; otherwise cache for 300 seconds. -/
def computeKeyExpireAt (now : Int) (kb : KeyBundle) : Int :=
  match kb.expireAt with
  | some e => if e > 0 then max 0 (e - 5) else now + 300
  | none => now + 300

/-- The cache-validity test of `_ensure_key`:
`if self._key_data and now < self._key_expire_at`. -/
def cacheValid (st : ResolverState) (now : Int) : Bool :=
  st.keyData.isSome && now < st.keyExpireAt

/-- A fetch from the encryption endpoint, consuming the next bundle of the
oracle list; `none` models a failing endpoint (surfaced network error). -/
def ensureKeyFetch (now : Int) (fresh : List KeyBundle) :
    Option (KeyBundle × ResolverState × List KeyBundle × Nat) :=
  match fresh with
  | [] => none
  | kb :: rest => some (kb, ⟨some kb, computeKeyExpireAt now kb⟩, rest, 1)

/-- Method `_ensure_key`: return the cached bundle while valid (no fetch),
otherwise fetch one (one encryption-endpoint call). -/
def ensureKey (st : ResolverState) (now : Int) (fresh : List KeyBundle) :
    Option (KeyBundle × ResolverState × List KeyBundle × Nat) :=
  match st.keyData with
  | some kb =>
    if now < st.keyExpireAt then some (kb, st, fresh, 0)
    else ensureKeyFetch now fresh
  | none => ensureKeyFetch now fresh

/-- Outcome of one play-endpoint POST, from the oracle: a JSON body with
its app-level `error` field and payload, or an HTTP error status. -/
inductive PostOutcome where
  | ok (errorField : Int) (payload : String)
  | httpErr (status : Nat)
deriving DecidableEq, Repr

/-- Result of one `resolve_stream_url` call. -/
inductive ResolveResult where
  | success (payload : String)
  | protocolErr
  | httpFailure (status : Nat)
  | fetchFailed
  | noResponse
deriving DecidableEq, Repr

/-- Trace of one `resolve_stream_url` call. -/
structure ResolveTrace where
  result : ResolveResult
  encFetches : Nat
  playPosts : Nat
  bundlesUsed : List KeyBundle
  finalState : ResolverState
deriving DecidableEq, Repr

/-- Interpret the body of one play POST (`error != 0` is surfaced as a
protocol error, `error == 0` returns the payload). -/
def interpretBody (errorField : Int) (payload : String) : ResolveResult :=
  if errorField = 0 then .success payload else .protocolErr

/-- Method `resolve_stream_url`: the two-attempt loop.  Attempt 0 uses the cache
when valid; an HTTP 403 on attempt 0 invalidates the cache
(`_invalidate_key`), re-runs `_ensure_key` (now necessarily a fetch) and
POSTs once more; any other HTTP error, and any HTTP error on attempt 1,
is surfaced. -/
def resolveStreamUrl (st : ResolverState) (now : Int) (fresh : List KeyBundle)
    (posts : List PostOutcome) : ResolveTrace :=
  match ensureKey st now fresh with
  | none => ⟨.fetchFailed, 0, 0, [], st⟩
  | some (k0, st0, fresh0, f0) =>
    match posts with
    | [] => ⟨.noResponse, f0, 0, [k0], st0⟩
    | .ok e payload :: _ => ⟨interpretBody e payload, f0, 1, [k0], st0⟩
    | .httpErr s :: prest =>
      if s = 403 then
        let st1 : ResolverState := ⟨none, 0⟩
        match ensureKey st1 now fresh0 with
        | none => ⟨.fetchFailed, f0, 1, [k0], st1⟩
        | some (k1, st2, _, f1) =>
          match prest with
          | [] => ⟨.noResponse, f0 + f1, 1, [k0, k1], st2⟩
          | .ok e payload :: _ =>
            ⟨interpretBody e payload, f0 + f1, 2, [k0, k1], st2⟩
          | .httpErr s1 :: _ => ⟨.httpFailure s1, f0 + f1, 2, [k0, k1], st2⟩
      else ⟨.httpFailure s, f0, 1, [k0], st0⟩

/-! ## Processing-stage cleanup — `danmaku.cleanup_small_files` -/

/-- What the cleanup step can observe about one basename `X` of the
processing folder: the size of `X.flv`, whether `X.xml` exists, and
whether `X.flv.part` exists.  (The glob `*.flv` matched `X.flv`.) -/
structure ProcEntry where
  base : String
  flvSize : Nat
  xmlExists : Bool
  partExists : Bool
deriving DecidableEq, Repr

/-- Function `cleanup_small_files` acting on one globbed `X.flv`: returns
`(flv deleted?, xml deleted?)`.  The source compares the size against
`MIN_FILE_SIZE_MB * 1024 * 1024` strictly and deletes the paired `X.xml`
only when it exists; it consults nothing else. -/
def cleanupEntry (minFileSizeMB : Nat) (e : ProcEntry) : Bool × Bool :=
  if e.flvSize < minFileSizeMB * 1024 * 1024 then (true, e.xmlExists)
  else (false, false)

/-! ## Segment finalization — `segment_pipeline._finalize_part_path` -/

/-- Property `pathlib.PurePath.suffix` of a final path component: the part from the
last dot on, empty when the dot is absent, leading, or trailing. -/
def nameSuffix (name : List Char) : List Char :=
  match (name.reverse.findIdx? (fun c => c = '.')).map
      (fun j => name.length - 1 - j) with
  | some i => if 0 < i ∧ i + 1 < name.length then name.drop i else []
  | none => []

/-- Function `_finalize_part_path`: raise `ValueError` unless the suffix is exactly
`.part`; otherwise return the name with that suffix removed
(`p.with_suffix("")`). -/
def finalizePartPath (name : List Char) : Except String (List Char) :=
  if nameSuffix name = ".part".data then
    .ok (name.take (name.length - 5))
  else
    .error "Expected .part file"

/-! ## Live-status monitor — `stream_monitor.StreamStatusMonitor` and
`scheduler.scheduled_log_stream_end` -/

/-- Method `detect_change` as a state transformer over the cached status
(`_last_status : Optional[bool]`) given one API result
(`None` = unknown).  Returns the new cache and the reported edge. -/
def detectChange (last : Option Bool) (current : Option Bool) :
    Option Bool × Option (Bool × Bool) :=
  match current with
  | none => (last, none)
  | some c =>
    match last with
    | none => (some c, none)
    | some l => if c ≠ l then (some c, some (l, c)) else (some l, none)

/-- The database action `scheduled_log_stream_end` performs for a reported
edge: nothing when `detect_change` returned `None`, insert an open session
on an offline→live edge, close (or insert an end-only) session on a
live→offline edge. -/
inductive SessionAction where
  | noop
  | insertStart
  | closeOrInsertEnd
deriving DecidableEq, Repr

/-- The edge dispatch of `scheduled_log_stream_end` (`change is None` →
early return before any DB access). -/
def sessionActionOf (change : Option (Bool × Bool)) : SessionAction :=
  match change with
  | none => .noop
  | some (_, true) => .insertStart
  | some (_, false) => .closeOrInsertEnd

/-! ## Concrete fixtures used by the claim instances -/

/-- The CLI result the destination returns when rate-limited: nonzero
exit code and `code 21540` in the output (taken from the unit test
fixture of the repository). -/
def rateLimitCliResult : CliResult :=
  { returncode := 1
    stdout := "Object \x7b\"code\": Number(21540), \"message\": String(\"请求过于频繁，请稍后再试\")\x7d\n"
    stderr := "\x7b\"code\":21540,\"message\":\"请求过于频繁，请稍后再试\",\"ttl\":1\x7d\n" }

/-- A concrete key bundle, standing for a previously cached one. -/
def demoBundle1 : KeyBundle := ⟨"E1", "RAND", "KEY", 2, 0, some 1000⟩

/-- A concrete key bundle, standing for a freshly served one. -/
def demoBundle2 : KeyBundle := ⟨"E2", "RAND2", "KEY2", 2, 0, none⟩

/-! ## Shared lemmas -/

theorem chooseLatest_ne_none (acc : Option UVRow) (r : UVRow) :
    chooseLatest acc r ≠ none := by
  cases acc with
  | none => simp [chooseLatest]
  | some a =>
    simp only [chooseLatest]
    split <;> simp

theorem foldl_chooseLatest_eq_none (l : List UVRow) (acc : Option UVRow) :
    l.foldl chooseLatest acc = none ↔ acc = none ∧ l = [] := by
  induction l generalizing acc with
  | nil => simp
  | cons r l ih =>
    simp only [List.foldl_cons, ih]
    constructor
    · rintro ⟨h, -⟩
      exact absurd h (chooseLatest_ne_none acc r)
    · rintro ⟨-, h⟩
      cases h

theorem latestWithBvid_eq_none_iff (rows : List UVRow) (ps pe : Int) :
    latestWithBvid rows ps pe = none ↔
      rows.filter (fun r => inPeriod ps pe r && r.bvid.isSome) = [] := by
  rw [latestWithBvid, foldl_chooseLatest_eq_none]
  simp

/-! ## C1 — resolver signature is the iterated MD5 chain -/

/-- C1: for every room id, timestamp and key bundle with `is_special = 0`,
the signature computed by the resolver is the iterated MD5 chain — `secret` starts at
`rand_str`, is hashed with the key `enc_time` times, and the auth is
`md5(secret + key + room_id + ts)`; concretely, for
`rid="1234"`, `ts=1700000000`, `rand_str="RAND"`, `key="KEY"`,
`enc_time=2`, `is_special=0` the signature is
`md5(md5(md5("RANDKEY")+"KEY") + "KEY" + "12341700000000")`; and for any
nonzero `is_special` the salt is empty, so the signature does not depend
on the room id or the timestamp. -/
theorem douyuSign_iterated_md5_chain :
    (∀ (md5 : String → String) (rid : String) (ts : Nat)
        (randStr key : String) (encTime : Nat),
      douyuSign md5 rid ts randStr key encTime 0
        = md5 (iterSecret md5 key randStr encTime ++ key ++ (rid ++ toString ts)))
    ∧ (∀ md5 : String → String,
      douyuSign md5 "1234" 1700000000 "RAND" "KEY" 2 0
        = md5 (md5 (md5 "RANDKEY" ++ "KEY") ++ "KEY" ++ "12341700000000"))
    ∧ (∀ (md5 : String → String) (rid rid' : String) (ts ts' : Nat)
        (randStr key : String) (encTime : Nat) (isSpecial : Int),
      isSpecial ≠ 0 →
      douyuSign md5 rid ts randStr key encTime isSpecial
        = douyuSign md5 rid' ts' randStr key encTime isSpecial) := by
  refine ⟨?_, ?_, ?_⟩
  · intro md5 rid ts randStr key encTime
    simp [douyuSign]
  · intro md5
    have h1 : ("RAND" ++ "KEY" : String) = "RANDKEY" := by decide
    have h2 : ("1234" ++ toString (1700000000 : Nat) : String) = "12341700000000" := by
      decide
    simp only [douyuSign, iterSecret, if_true]
    rw [h1, h2]
  · intro md5 rid rid' ts ts' randStr key encTime isSpecial h
    simp [douyuSign, if_neg h]

/-- Witness for C1 at concrete inputs, with a concrete stand-in hash. -/
theorem douyuSign_iterated_md5_chain_witness :
    douyuSign (fun s => "#" ++ s) "1234" 1700000000 "RAND" "KEY" 2 0
      = (fun s : String => "#" ++ s)
          ((fun s : String => "#" ++ s)
            ((fun s : String => "#" ++ s) "RANDKEY" ++ "KEY") ++ "KEY"
            ++ "12341700000000")
    ∧ douyuSign (fun s => "#" ++ s) "1234" 1700000000 "RAND" "KEY" 2 1
      = douyuSign (fun s => "#" ++ s) "99999" 5 "RAND" "KEY" 2 1 :=
  ⟨douyuSign_iterated_md5_chain.2.1 (fun s => "#" ++ s),
   douyuSign_iterated_md5_chain.2.2 (fun s => "#" ++ s) "1234" "99999"
     1700000000 5 "RAND" "KEY" 2 1 (by decide)⟩

/-! ## C10 — first definite status only fills the cache -/

/-- C10: when the cached status was never initialised (`_last_status` is
`None`), the first `detect_change` call that obtains a definite status
stores it and reports "no change", so the edge dispatch of the scheduler
performs no `StreamSession` insert or update on that poll; an "unknown"
result leaves the cache untouched and also reports "no change". -/
theorem detectChange_uninitialized_no_edge :
    ∀ c : Bool,
      detectChange none (some c) = (some c, none)
      ∧ sessionActionOf (detectChange none (some c)).2 = .noop
      ∧ detectChange none none = (none, none)
      ∧ sessionActionOf (detectChange none none).2 = .noop := by
  intro c
  exact ⟨rfl, rfl, rfl, rfl⟩

/-! ## C8 — undersized-file cleanup ignores `.part` markers -/

/-- C8 counterexample: an `X.flv` of size 0 (below the 10 MB default)
whose `X.flv.part` exists is nevertheless deleted together with its
`X.xml` — the cleanup step never consults `X.flv.part`, contradicting the
claimed exception. -/
theorem cleanup_deletes_despite_part_file :
    (ProcEntry.partExists ⟨"X", 0, true, true⟩ = true
      ∧ 0 < 10 * 1024 * 1024)
    ∧ cleanupEntry 10 ⟨"X", 0, true, true⟩ = (true, true) := by
  decide

/-- C8 amended: every globbed `X.flv` strictly below
`MIN_FILE_SIZE_MB * 1024 * 1024` bytes is deleted, together with its
paired `X.xml` when that exists, regardless of whether `X.flv.part`
exists; a file of size at least the threshold (in particular exactly
`MIN_FILE_SIZE_MB`) is retained. -/
theorem cleanupEntry_threshold :
    ∀ (minFileSizeMB : Nat) (e : ProcEntry),
      (e.flvSize < minFileSizeMB * 1024 * 1024 →
        cleanupEntry minFileSizeMB e = (true, e.xmlExists))
      ∧ (minFileSizeMB * 1024 * 1024 ≤ e.flvSize →
        cleanupEntry minFileSizeMB e = (false, false)) := by
  intro minFileSizeMB e
  constructor
  · intro h
    simp [cleanupEntry, h]
  · intro h
    simp [cleanupEntry, Nat.not_lt.mpr h]

/-- Witness for C8 amended: a 0-byte file is deleted with its XML; a file
of exactly the 10 MB threshold is retained. -/
theorem cleanupEntry_threshold_witness :
    cleanupEntry 10 ⟨"a", 0, true, false⟩ = (true, true)
    ∧ cleanupEntry 10 ⟨"b", 10 * 1024 * 1024, true, false⟩ = (false, false) :=
  ⟨(cleanupEntry_threshold 10 ⟨"a", 0, true, false⟩).1 (by decide),
   (cleanupEntry_threshold 10 ⟨"b", 10 * 1024 * 1024, true, false⟩).2 (by decide)⟩

/-! ## C9 — finalization requires the `.part` suffix -/

/-- C9: `_finalize_part_path` raises (returns an error, so the rename step
never runs) for every name whose `pathlib` suffix is not `.part`, and for
a name with the `.part` suffix it returns the name with that suffix
stripped (appending `.part` back recovers the input). -/
theorem finalizePartPath_requires_part_suffix :
    ∀ name : List Char,
      (nameSuffix name ≠ ".part".data →
        finalizePartPath name = .error "Expected .part file")
      ∧ (nameSuffix name = ".part".data →
        finalizePartPath name = .ok (name.take (name.length - 5))
        ∧ name.take (name.length - 5) ++ ".part".data = name) := by
  intro name
  constructor
  · intro h
    simp [finalizePartPath, h]
  · intro h
    refine ⟨by simp [finalizePartPath, h], ?_⟩
    have hdrop : name.drop (name.length - 5) = ".part".data := by
      rw [nameSuffix] at h
      rcases hfind : (name.reverse.findIdx? (fun c => c = '.')).map
          (fun j => name.length - 1 - j) with - | i
      · rw [hfind] at h
        cases h
      · have hns : nameSuffix name
            = if 0 < i ∧ i + 1 < name.length then name.drop i else [] := by
          rw [nameSuffix, hfind]
        rw [nameSuffix] at hns
        rw [hns] at h
        by_cases hcond : 0 < i ∧ i + 1 < name.length
        · rw [if_pos hcond] at h
          have hlen5 : name.length - i = 5 := by
            have := congrArg List.length h
            simpa [List.length_drop] using this
          have hi : i = name.length - 5 := by omega
          rw [← hi]
          exact h
        · rw [if_neg hcond] at h
          cases h
    calc name.take (name.length - 5) ++ ".part".data
        = name.take (name.length - 5) ++ name.drop (name.length - 5) := by
          rw [hdrop]
      _ = name := List.take_append_drop _ _

/-- Witness for C9: `a.flv` is rejected, `a.flv.part` finalizes to
`a.flv`. -/
theorem finalizePartPath_requires_part_suffix_witness :
    finalizePartPath "a.flv".data = .error "Expected .part file"
    ∧ finalizePartPath "a.flv.part".data = .ok "a.flv".data := by
  refine ⟨(finalizePartPath_requires_part_suffix "a.flv".data).1 (by decide), ?_⟩
  have h := ((finalizePartPath_requires_part_suffix "a.flv.part".data).2
    (by decide)).1
  rw [h]
  rfl

/-! ## C4 — pending-BVID buckets are skipped entirely -/

/-- C4: for any bucket whose buffered interval holds no row with a
non-null `bvid` but at least one row with `bvid = null`, the run issues
zero create calls and zero append calls for that bucket. -/
theorem runBucket_pending_skips_all_calls :
    ∀ (cfg : Config) (rows : List UVRow) (ps pe : Int) (videos : List VideoInfo)
      (clis : List CliResult) (createTitle : String) (bv : Option String),
      (∀ r ∈ rows, inPeriod ps pe r = true → r.bvid = none) →
      (∃ r ∈ rows, inPeriod ps pe r = true ∧ r.bvid = none) →
      (runBucket cfg rows ps pe videos clis createTitle bv).createCalls = 0
      ∧ (runBucket cfg rows ps pe videos clis createTitle bv).appendTitles = [] := by
  intro cfg rows ps pe videos clis createTitle bv hall hex
  have hfilter : rows.filter (fun r => inPeriod ps pe r && r.bvid.isSome) = [] := by
    rw [List.filter_eq_nil_iff]
    intro r hr
    simp only [Bool.and_eq_true, not_and, Bool.not_eq_true]
    intro hin
    rw [hall r hr hin]
    rfl
  have hlatest : latestWithBvid rows ps pe = none :=
    (latestWithBvid_eq_none_iff rows ps pe).mpr hfilter
  have hpending : pendingInPeriod rows ps pe = true := by
    obtain ⟨r, hr, hin, hnone⟩ := hex
    have hmem : r ∈ rows.filter (fun r => inPeriod ps pe r && r.bvid.isNone) := by
      rw [List.mem_filter]
      exact ⟨hr, by rw [hin, hnone]; rfl⟩
    simp only [pendingInPeriod, Bool.not_eq_true']
    rw [List.isEmpty_eq_false]
    exact List.ne_nil_of_mem hmem
  constructor <;> simp [runBucket, hlatest, hpending]

/-- Witness for C4: the bucket of scenario S5 — a single pending row
(`bvid = null`) inside the interval, one new file — produces no create
and no append. -/
theorem runBucket_pending_skips_all_calls_witness :
    (runBucket ⟨false, 24, false, "s", 300, 1⟩
        [⟨none, "p", "placeholder.mp4", 34200⟩] 31800 40200
        [⟨"new.mp4", 36000⟩] [⟨0, "投稿成功", ""⟩] "T" none).createCalls = 0
    ∧ (runBucket ⟨false, 24, false, "s", 300, 1⟩
        [⟨none, "p", "placeholder.mp4", 34200⟩] 31800 40200
        [⟨"new.mp4", 36000⟩] [⟨0, "投稿成功", ""⟩] "T" none).appendTitles = [] :=
  runBucket_pending_skips_all_calls ⟨false, 24, false, "s", 300, 1⟩
    [⟨none, "p", "placeholder.mp4", 34200⟩] 31800 40200
    [⟨"new.mp4", 36000⟩] [⟨0, "投稿成功", ""⟩] "T" none
    (by decide) (by decide)

/-! ## C5 — existing-BVID buckets append with part number `1 + count` -/

/-- C5: for any bucket whose buffered interval holds at least one row with
a non-null `bvid`, the run appends and never creates: zero create calls,
the starting part number is `1 + count` of all rows (any `bvid`) whose
`upload_time` lies in the interval, and the first newly appended file
carries the part title `P{1+count} {HH:MM:SS}` (so with 3 existing rows
it begins with `P4 `). -/
theorem runBucket_existing_bvid_appends :
    ∀ (cfg : Config) (rows : List UVRow) (ps pe : Int) (videos : List VideoInfo)
      (clis : List CliResult) (createTitle : String) (bv : Option String),
      (∃ r ∈ rows, inPeriod ps pe r = true ∧ r.bvid.isSome = true) →
      (runBucket cfg rows ps pe videos clis createTitle bv).createCalls = 0
      ∧ (runBucket cfg rows ps pe videos clis createTitle bv).startPart
          = some (countInPeriod rows ps pe + 1)
      ∧ (∀ (v : VideoInfo) (rest : List VideoInfo),
          videos = v :: rest →
          hasFilename rows v.filename = false →
          (runBucket cfg rows ps pe videos clis createTitle bv).appendTitles.head?
            = some (partTitle cfg (countInPeriod rows ps pe + 1) v.timestamp)) := by
  intro cfg rows ps pe videos clis createTitle bv hex
  have hne : latestWithBvid rows ps pe ≠ none := by
    rw [Ne, latestWithBvid_eq_none_iff]
    obtain ⟨r, hr, hin, hsome⟩ := hex
    have hmem : r ∈ rows.filter (fun r => inPeriod ps pe r && r.bvid.isSome) := by
      rw [List.mem_filter]
      exact ⟨hr, by rw [hin, hsome]; rfl⟩
    exact List.ne_nil_of_mem hmem
  obtain ⟨w, hw⟩ := Option.ne_none_iff_exists'.mp hne
  refine ⟨?_, ?_, ?_⟩
  · simp only [runBucket, hw]
  · simp only [runBucket, hw]
  · intro v rest hv hfresh
    subst hv
    simp only [runBucket, hw, appendLoop, hfresh, Bool.false_eq_true, if_false,
      List.head?_cons]

/-- Witness for C5: scenario S4 — one row with a BVID at 09:30 and two
pending rows at 09:40 and 09:50 lie in the interval, so the new file at
10:00:00 is appended as `P4 10:00:00` and no create is issued. -/
theorem runBucket_existing_bvid_appends_witness :
    (runBucket ⟨false, 24, false, "s", 300, 1⟩
        [⟨some "BV1TEST0000000000", "main", "a.mp4", 34200⟩,
         ⟨none, "p2", "b.mp4", 34800⟩, ⟨none, "p3", "c.mp4", 35400⟩]
        31800 40200 [⟨"new.mp4", 36000⟩] [⟨0, "稿件修改成功", ""⟩]
        "T" none).createCalls = 0
    ∧ (runBucket ⟨false, 24, false, "s", 300, 1⟩
        [⟨some "BV1TEST0000000000", "main", "a.mp4", 34200⟩,
         ⟨none, "p2", "b.mp4", 34800⟩, ⟨none, "p3", "c.mp4", 35400⟩]
        31800 40200 [⟨"new.mp4", 36000⟩] [⟨0, "稿件修改成功", ""⟩]
        "T" none).startPart = some 4
    ∧ (runBucket ⟨false, 24, false, "s", 300, 1⟩
        [⟨some "BV1TEST0000000000", "main", "a.mp4", 34200⟩,
         ⟨none, "p2", "b.mp4", 34800⟩, ⟨none, "p3", "c.mp4", 35400⟩]
        31800 40200 [⟨"new.mp4", 36000⟩] [⟨0, "稿件修改成功", ""⟩]
        "T" none).appendTitles.head? = some "P4 10:00:00" := by
  have h := runBucket_existing_bvid_appends ⟨false, 24, false, "s", 300, 1⟩
    [⟨some "BV1TEST0000000000", "main", "a.mp4", 34200⟩,
     ⟨none, "p2", "b.mp4", 34800⟩, ⟨none, "p3", "c.mp4", 35400⟩]
    31800 40200 [⟨"new.mp4", 36000⟩] [⟨0, "稿件修改成功", ""⟩]
    "T" none (by decide)
  refine ⟨h.1, ?_, ?_⟩
  · rw [h.2.1]
    decide
  · rw [h.2.2 ⟨"new.mp4", 36000⟩ [] rfl (by decide)]
    decide

/-! ## C2 — the append path performs no rate-limit retry -/

/-- C2 evaluated at the failing input: an append attempt that yields the
21540 rate-limit output is treated as a plain failure — the success
predicate rejects it, and the bucket run issues exactly one CLI call for
the file, performs no sleep, no second attempt, and inserts no
`UploadedVideo` row; the claimed cooldown-and-retry does not exist in the
source (`BILIUP_RATE_LIMIT_*` are never read by `uploader.py`). -/
theorem append_rate_limit_not_retried_in_code :
    biliupAppendSubmitSucceeded (cliOutput rateLimitCliResult)
        rateLimitCliResult.returncode = false
    ∧ runBucket ⟨false, 24, false, "s", 123, 1⟩
        [⟨some "BV1y9fsBbEma", "main", "already.mp4", 35400⟩]
        31800 40200 [⟨"new.mp4", 36000⟩]
        [rateLimitCliResult, ⟨0, "稿件修改成功", ""⟩] "T" none
      = { createCalls := 0
          appendTitles := ["P2 10:00:00"]
          startPart := some 2
          inserted := []
          deletedFiles := []
          sleeps := [] } := by
  decide

/-! ## C3 — files are deleted at upload time even when a delay is set -/

/-- C3 evaluated at the failing input: with `DELETE_UPLOADED_FILES = true`
and `DELETE_UPLOADED_FILES_DELAY_HOURS = 24 > 0`, a successful append and
a successful create both remove the local file immediately after the row
is committed — the source checks only `DELETE_UPLOADED_FILES` and never
reads the delay, so the file is not retained for the sweeper. -/
theorem upload_success_deletes_file_despite_delay :
    (Config.deleteUploadedFilesDelayHours ⟨true, 24, false, "s", 300, 1⟩ = 24)
    ∧ (runBucket ⟨true, 24, false, "s", 300, 1⟩
        [⟨some "BV1y9fsBbEma", "main", "already.mp4", 35400⟩]
        31800 40200 [⟨"new.mp4", 36000⟩] [⟨0, "稿件修改成功", ""⟩]
        "T" none).deletedFiles = ["new.mp4"]
    ∧ (runBucket ⟨true, 24, false, "s", 300, 1⟩ []
        31800 40200 [⟨"first.mp4", 36000⟩] [⟨0, "APP接口投稿成功", ""⟩]
        "T" (some "BV1y9fsBbEma")).deletedFiles = ["first.mp4"] := by
  decide

/-! ## C6 — 403 handling of the resolver -/

/-- C6 counterexample: a resolve that starts with a still-valid cached key
bundle, gets HTTP 403 on the first play POST and succeeds on the retry,
performs only **one** encryption-endpoint fetch — not the "exactly two"
the claim asserts for every resolve with a 403 retry. -/
theorem resolve403_warm_cache_single_fetch :
    cacheValid ⟨some demoBundle1, 100⟩ 0 = true
    ∧ (resolveStreamUrl ⟨some demoBundle1, 100⟩ 0 [demoBundle2]
        [.httpErr 403, .ok 0 "u"]).playPosts = 2
    ∧ (resolveStreamUrl ⟨some demoBundle1, 100⟩ 0 [demoBundle2]
        [.httpErr 403, .ok 0 "u"]).result = .success "u"
    ∧ (resolveStreamUrl ⟨some demoBundle1, 100⟩ 0 [demoBundle2]
        [.httpErr 403, .ok 0 "u"]).encFetches = 1
    ∧ (resolveStreamUrl ⟨some demoBundle1, 100⟩ 0 [demoBundle2]
        [.httpErr 403, .ok 0 "u"]).encFetches ≠ 2 := by
  decide

/-- C6 amended: on a first-POST HTTP 403 the resolver invalidates the
cached bundle and retries the POST exactly once with a freshly fetched
bundle (two POSTs total); the resolve performs two encryption fetches
when no valid bundle was cached at its start and one when the first POST
used a still-valid cached bundle; the outcome of the retry — including a
second 403 — and any non-403 HTTP error are surfaced to the caller. -/
theorem resolve403_retry_behavior :
    (∀ (st : ResolverState) (now : Int) (fresh : List KeyBundle)
        (p1 : PostOutcome) (rest : List PostOutcome),
      2 ≤ fresh.length →
      (resolveStreamUrl st now fresh (.httpErr 403 :: p1 :: rest)).playPosts = 2
      ∧ (resolveStreamUrl st now fresh (.httpErr 403 :: p1 :: rest)).encFetches
          = (if cacheValid st now then 1 else 2)
      ∧ (resolveStreamUrl st now fresh (.httpErr 403 :: p1 :: rest)).bundlesUsed.length
          = 2
      ∧ (resolveStreamUrl st now fresh (.httpErr 403 :: p1 :: rest)).bundlesUsed[1]?
          = fresh[if cacheValid st now then 0 else 1]?
      ∧ (∀ (e : Int) (pl : String), p1 = .ok e pl →
          (resolveStreamUrl st now fresh (.httpErr 403 :: p1 :: rest)).result
            = interpretBody e pl)
      ∧ (∀ s1 : Nat, p1 = .httpErr s1 →
          (resolveStreamUrl st now fresh (.httpErr 403 :: p1 :: rest)).result
            = .httpFailure s1))
    ∧ (∀ (st : ResolverState) (now : Int) (fresh : List KeyBundle)
        (s : Nat) (rest : List PostOutcome),
      s ≠ 403 → 1 ≤ fresh.length →
      (resolveStreamUrl st now fresh (.httpErr s :: rest)).result = .httpFailure s
      ∧ (resolveStreamUrl st now fresh (.httpErr s :: rest)).playPosts = 1) := by
  constructor
  · intro st now fresh p1 rest hlen
    obtain ⟨kd, exp⟩ := st
    rcases fresh with - | ⟨a, - | ⟨b, t⟩⟩
    · simp at hlen
    · simp at hlen
    · rcases kd with - | kb
      · cases p1 with
        | ok e pl =>
          refine ⟨rfl, rfl, rfl, ?_, ?_, ?_⟩
          · simp [resolveStreamUrl, ensureKey, ensureKeyFetch, cacheValid]
          · intro e' pl' heq
            cases heq
            rfl
          · intro s1 heq
            cases heq
        | httpErr s1 =>
          refine ⟨rfl, rfl, rfl, ?_, ?_, ?_⟩
          · simp [resolveStreamUrl, ensureKey, ensureKeyFetch, cacheValid]
          · intro e' pl' heq
            cases heq
          · intro s1' heq
            cases heq
            rfl
      · by_cases hnow : now < exp
        · cases p1 with
          | ok e pl =>
            refine ⟨?_, ?_, ?_, ?_, ?_, ?_⟩ <;>
              simp [resolveStreamUrl, ensureKey, ensureKeyFetch, cacheValid, hnow,
                interpretBody]
          | httpErr s1 =>
            refine ⟨?_, ?_, ?_, ?_, ?_, ?_⟩ <;>
              simp [resolveStreamUrl, ensureKey, ensureKeyFetch, cacheValid, hnow]
        · cases p1 with
          | ok e pl =>
            refine ⟨?_, ?_, ?_, ?_, ?_, ?_⟩ <;>
              simp [resolveStreamUrl, ensureKey, ensureKeyFetch, cacheValid, hnow,
                interpretBody]
          | httpErr s1 =>
            refine ⟨?_, ?_, ?_, ?_, ?_, ?_⟩ <;>
              simp [resolveStreamUrl, ensureKey, ensureKeyFetch, cacheValid, hnow]
  · intro st now fresh s rest hs hlen
    obtain ⟨kd, exp⟩ := st
    rcases fresh with - | ⟨a, t⟩
    · simp at hlen
    · rcases kd with - | kb
      · constructor <;>
          simp [resolveStreamUrl, ensureKey, ensureKeyFetch, hs]
      · by_cases hnow : now < exp
        · constructor <;>
            simp [resolveStreamUrl, ensureKey, ensureKeyFetch, hs, hnow]
        · constructor <;>
            simp [resolveStreamUrl, ensureKey, ensureKeyFetch, hs, hnow]

/-- Witness for C6 amended: a cold-cache resolve with a 403 then success
does two POSTs and two fetches; a cold-cache resolve whose first POST
fails with HTTP 500 surfaces it after one POST. -/
theorem resolve403_retry_behavior_witness :
    (resolveStreamUrl ⟨none, 0⟩ 0 [demoBundle1, demoBundle2]
        [.httpErr 403, .ok 0 "u"]).playPosts = 2
    ∧ (resolveStreamUrl ⟨none, 0⟩ 0 [demoBundle1, demoBundle2]
        [.httpErr 403, .ok 0 "u"]).encFetches = 2
    ∧ (resolveStreamUrl ⟨none, 0⟩ 0 [demoBundle1, demoBundle2]
        [.httpErr 403, .ok 0 "u"]).result = .success "u"
    ∧ (resolveStreamUrl ⟨none, 0⟩ 0 [demoBundle1, demoBundle2]
        [.httpErr 500]).result = .httpFailure 500 := by
  have h := resolve403_retry_behavior.1 ⟨none, 0⟩ 0 [demoBundle1, demoBundle2]
    (.ok 0 "u") [] (by decide)
  have h2 := resolve403_retry_behavior.2 ⟨none, 0⟩ 0 [demoBundle1, demoBundle2]
    500 [] (by decide) (by decide)
  refine ⟨h.1, ?_, ?_, h2.1⟩
  · rw [h.2.1]
    decide
  · rw [h.2.2.2.2.1 0 "u" rfl]
    decide

/-! ## C7 — STT framing round trip -/

theorem pack_eq_frame (p : List Nat) : pack p = sttFrame (withSlash p) := by
  unfold pack withSlash sttFrame
  by_cases h : p.getLast? = some 47 <;>
    simp [h, List.append_assoc, Nat.add_assoc]

theorem takeWhile_append_nul (q : List Nat) (h : (0 : Nat) ∉ q) :
    (q ++ [0]).takeWhile (fun b => b ≠ 0) = q := by
  induction q with
  | nil => simp
  | cons a as ih =>
    simp only [List.mem_cons, not_or] at h
    simp only [List.cons_append, List.takeWhile_cons]
    rw [if_pos (by simpa using Ne.symm h.1), ih h.2]

theorem iterPayloads_nil : iterPayloads [] = [] := by
  rw [iterPayloads]
  simp

theorem iterPayloads_frame (q rest : List Nat) (h0 : (0 : Nat) ∉ q)
    (hlen : q.length + 9 < 4294967296) :
    iterPayloads (sttFrame q ++ rest) = q :: iterPayloads rest := by
  have hcons : sttFrame q ++ rest
      = (q.length + 9) % 256 :: (q.length + 9) / 256 % 256
        :: (q.length + 9) / 65536 % 256 :: (q.length + 9) / 16777216 % 256
        :: (le32 (q.length + 9) ++ (le32 douyuOpCode ++ (q ++ ([0] ++ rest)))) := by
    simp [sttFrame, le32, List.append_assoc]
  have hread : readLE32 (sttFrame q ++ rest) = q.length + 9 := by
    rw [hcons]
    simp only [readLE32]
    omega
  have hlen_total : (sttFrame q ++ rest).length = q.length + 13 + rest.length := by
    simp only [sttFrame, le32, List.length_append, List.length_cons,
      List.length_nil]
    omega
  have hdr_len : ((le32 (q.length + 9) ++ le32 (q.length + 9))
      ++ le32 douyuOpCode).length = 12 := by
    simp [le32]
  have hdrop12 : (sttFrame q ++ rest).drop 12 = q ++ ([0] ++ rest) := by
    have hsplit : sttFrame q ++ rest
        = ((le32 (q.length + 9) ++ le32 (q.length + 9)) ++ le32 douyuOpCode)
          ++ (q ++ ([0] ++ rest)) := by
      simp [sttFrame, List.append_assoc]
    rw [hsplit, ← hdr_len, List.drop_left]
  have hframe_len : (sttFrame q).length = q.length + 13 := by
    simp only [sttFrame, le32, List.length_append, List.length_cons,
      List.length_nil]
    omega
  have hdropP : (sttFrame q ++ rest).drop (q.length + 9 + 4) = rest := by
    rw [show q.length + 9 + 4 = (sttFrame q).length from by omega,
      List.drop_left]
  rw [iterPayloads]
  rw [dif_neg (by rw [hlen_total]; omega)]
  simp only [hread, hlen_total, sttHeaderSize]
  rw [dif_neg (by omega)]
  rw [hdrop12, hdropP]
  rw [show q.length + 9 + 4 - 12 = q.length + 1 from by omega]
  rw [List.take_append 1]
  rw [show (([0] : List Nat) ++ rest).take 1 = [0] from by simp]
  rw [takeWhile_append_nul q h0]

theorem withSlash_zero_not_mem (p : List Nat) (h : (0 : Nat) ∉ p) :
    (0 : Nat) ∉ withSlash p := by
  unfold withSlash
  split
  · exact h
  · simp only [List.mem_append, List.mem_singleton]
    rintro (hc | hc)
    · exact h hc
    · cases hc

theorem withSlash_length_le (p : List Nat) :
    (withSlash p).length ≤ p.length + 1 := by
  unfold withSlash
  split <;> simp

theorem withSlash_of_ends_slash (p : List Nat) (h : p.getLast? = some 47) :
    withSlash p = p := by
  simp [withSlash, h]

theorem iterPayloads_pack_pack (p1 p2 : List Nat)
    (h1 : (0 : Nat) ∉ p1) (h2 : (0 : Nat) ∉ p2)
    (hl1 : p1.length + 10 < 4294967296) (hl2 : p2.length + 10 < 4294967296) :
    iterPayloads (pack p1 ++ pack p2) = [withSlash p1, withSlash p2] := by
  rw [pack_eq_frame, pack_eq_frame]
  rw [iterPayloads_frame _ _ (withSlash_zero_not_mem p1 h1)
    (by have := withSlash_length_le p1; omega)]
  have h := iterPayloads_frame (withSlash p2) [] (withSlash_zero_not_mem p2 h2)
    (by have := withSlash_length_le p2; omega)
  rw [List.append_nil] at h
  rw [h, iterPayloads_nil]

/-- C7 counterexample: for the payload byte string `[97]` (`"a"`, lacking
the trailing slash), iterating over `pack("a") ++ pack("a")` yields the
slash-normalised payloads `["a/", "a/"]`, not `["a", "a"]` — the claimed
identity `iterPayloads (pack p1 ++ pack p2) = [p1, p2]` fails. -/
theorem pack_roundtrip_appends_slash :
    iterPayloads (pack [97] ++ pack [97]) = [[97, 47], [97, 47]]
    ∧ iterPayloads (pack [97] ++ pack [97]) ≠ [[97], [97]] := by
  have h := iterPayloads_pack_pack [97] [97] (by decide) (by decide)
    (by decide) (by decide)
  have hw : withSlash [97] = [97, 47] := by decide
  rw [hw] at h
  exact ⟨h, by rw [h]; decide⟩

/-- C7 amended: for payloads (as UTF-8 byte strings) that already end
with the slash byte, contain no NUL byte, and whose frame length fits the
32-bit length field, iterating over the concatenation of their packed
frames yields exactly the two payloads in order; a payload lacking the
trailing slash is yielded with the slash `pack` appended. -/
theorem iterPayloads_pack_pack_of_terminated :
    ∀ p1 p2 : List Nat,
      p1.getLast? = some 47 → p2.getLast? = some 47 →
      (0 : Nat) ∉ p1 → (0 : Nat) ∉ p2 →
      p1.length + 10 < 4294967296 → p2.length + 10 < 4294967296 →
      iterPayloads (pack p1 ++ pack p2) = [p1, p2] := by
  intro p1 p2 hs1 hs2 h1 h2 hl1 hl2
  have h := iterPayloads_pack_pack p1 p2 h1 h2 hl1 hl2
  rwa [withSlash_of_ends_slash p1 hs1, withSlash_of_ends_slash p2 hs2] at h

/-- Witness for C7 amended: the round trip at two concrete
slash-terminated payloads. -/
theorem iterPayloads_pack_pack_of_terminated_witness :
    iterPayloads (pack [116, 47] ++ pack [117, 47]) = [[116, 47], [117, 47]] :=
  iterPayloads_pack_pack_of_terminated [116, 47] [117, 47]
    (by decide) (by decide) (by decide) (by decide) (by decide) (by decide)

end VideoProcessor
